import Mathlib

/-!
Shallow embedding of the ticket-triage pipeline in `app/graph.py`.

The pipeline is: ingest (order-id extraction from text) → classify_issue
(first-match keyword rules) → optional fetch_order (store lookup, taken only
when an order id is present) → draft_reply (template substitution), wrapped by
the entry point `run_triage`.

The three lookup tables (ORDERS, ISSUES, REPLIES) are loaded from JSON files
that live outside the embedded sources, so every function is parameterized by
the store contents.  Characters are modelled with Lean's ASCII-level
`Char.toUpper`/`Char.toLower`/`Char.isDigit`, matching Python's behaviour on
the ASCII inputs the pipeline is specified over.  Python's `str.replace`,
`in` (substring test) and `re.search` scanning are modelled explicitly below.
-/

namespace Triage

/-- An entry of an order's `items` list: `{name, quantity}`. -/
structure Item where
  name : String
  quantity : Nat
deriving DecidableEq

/-- A record of the orders table (`orders.json`). -/
structure Order where
  order_id : String
  customer_name : String
  status : String
  items : List Item
deriving DecidableEq

/-- A record of the issue-classification table (`issues.json`): keyword plus tag. -/
structure IssueRule where
  keyword : String
  issue_type : String
deriving DecidableEq

/-- A record of the reply-template table (`replies.json`). -/
structure ReplyTemplate where
  issue_type : String
  template : String
deriving DecidableEq

/-- What `fetch_order_tool` returns: the order dict, or the `{"error": ...}` dict. -/
inductive FetchResult where
  | found (o : Order)
  | notFound (err : String)
deriving DecidableEq

/-- The dict returned by `run_triage` (graph.py lines 199-207). -/
structure Result where
  order_id : Option String
  issue_type : Option String
  evidence : Option String
  recommendation : Option String
  order : Option Order
  reply_text : String
  error : Option String
deriving DecidableEq

/-- Python truthiness of an optional string (`if order_id:`): `None` and the
empty string are falsy, every other string is truthy. -/
def truthy : Option String → Bool
  | none => false
  | some s => !(s == "")

/-- Python's substring test `needle in hay`, on character lists: true iff
`needle` occurs contiguously in `hay` (an empty needle always occurs). -/
def containsSub (needle : List Char) : List Char → Bool
  | [] => needle.isPrefixOf []
  | c :: rest => needle.isPrefixOf (c :: rest) || containsSub needle rest

/-- One attempt of the regex `ORD\d{4}` (case-insensitive) anchored at the head
of the list: three letters matching `ORD` up to case, then exactly four digits.
On success it returns the matched text uppercased, as `m.group(1).upper()`
does (graph.py line 79). -/
def matchOrdAt : List Char → Option String
  | c0 :: c1 :: c2 :: d0 :: d1 :: d2 :: d3 :: _ =>
    if c0.toUpper == 'O' && c1.toUpper == 'R' && c2.toUpper == 'D'
        && d0.isDigit && d1.isDigit && d2.isDigit && d3.isDigit then
      some (String.mk ([c0, c1, c2, d0, d1, d2, d3].map Char.toUpper))
    else
      none
  | _ => none

/-- `re.search(r"(ORD\d{4})", text, re.IGNORECASE)`: scan left to right and
return the leftmost match (uppercased), if any. -/
def findOrd : List Char → Option String
  | [] => none
  | c :: rest =>
    match matchOrdAt (c :: rest) with
    | some s => some s
    | none => findOrd rest

/-- Node 1, `ingest` (graph.py lines 69-81), restricted to its `order_id`
output: keep a truthy caller-supplied id unchanged, otherwise take the first
`ORD\d{4}` match from the ticket text, uppercased; the id stays as it was
(absent) when the text has no match. -/
def ingest (ticket_text : String) (order_id : Option String) : Option String :=
  if truthy order_id then order_id
  else
    match findOrd ticket_text.toList with
    | some s => some s
    | none => order_id

/-- Node 2, `classify_issue` (graph.py lines 85-96), restricted to its
`(issue_type, evidence)` output: first rule whose keyword is a substring of
the lowercased text wins; the fall-through sets `"unknown"`. -/
def classify_issue (issues : List IssueRule) (ticket_text : String) : String × String :=
  let text := ticket_text.toList.map Char.toLower
  match issues.find? (fun r => containsSub r.keyword.toList text) with
  | some r => (r.issue_type, "Matched keyword '" ++ r.keyword ++ "' in ticket text")
  | none => ("unknown", "No matching keywords found in ticket text")

/-- The `fetch_order_tool` tool (graph.py lines 59-65): first order whose
`order_id` equals the argument exactly, else the error dict
`{"error": f"Order {order_id} not found"}`. -/
def fetch_order_tool (orders : List Order) (order_id : String) : FetchResult :=
  match orders.find? (fun o => o.order_id == order_id) with
  | some o => FetchResult.found o
  | none => FetchResult.notFound ("Order " ++ order_id ++ " not found")

/-- The RECOMMENDATIONS dict (graph.py lines 36-45), as an association list in
source order. -/
def RECOMMENDATIONS : List (String × String) :=
  [("refund_request", "Process refund for the customer"),
   ("damaged_item", "Send replacement item to customer"),
   ("late_delivery", "Track package and provide updated ETA"),
   ("missing_item", "Investigate and ship missing item"),
   ("duplicate_charge", "Refund the duplicate charge"),
   ("wrong_item", "Arrange return and send correct item"),
   ("defective_product", "Honor warranty and replace product"),
   ("unknown", "Escalate to human agent for review")]

/-- `RECOMMENDATIONS.get(issue_type, RECOMMENDATIONS["unknown"])` (graph.py
line 143); the default is the dict's own `"unknown"` entry. -/
def getRecommendation (issue_type : String) : String :=
  match RECOMMENDATIONS.find? (fun p => p.1 == issue_type) with
  | some p => p.2
  | none => "Escalate to human agent for review"

/-- Python `str.replace` with an empty pattern: the replacement is inserted
before every character and at the end. -/
def interleaveRepl (repl : List Char) : List Char → List Char
  | [] => repl
  | c :: rest => repl ++ c :: interleaveRepl repl rest

/-- Python `str.replace` with a non-empty pattern `p :: ps`: scan left to
right, replacing each non-overlapping occurrence and resuming after it.  The
fuel argument makes the recursion structural; every step consumes at least one
character of the remaining text, so fuel equal to the text's length (as
supplied by `pyReplace`) is never exhausted. -/
def replaceLoop (p : Char) (ps repl : List Char) : Nat → List Char → List Char
  | _, [] => []
  | 0, l => l
  | fuel + 1, c :: rest =>
    if (p :: ps).isPrefixOf (c :: rest) then
      repl ++ replaceLoop p ps repl fuel (rest.drop ps.length)
    else
      c :: replaceLoop p ps repl fuel rest

/-- Python `s.replace(pat, repl)`: all non-overlapping occurrences, scanned
left to right. -/
def pyReplace (s pat repl : String) : String :=
  match pat.toList with
  | [] => String.mk (interleaveRepl repl.toList s.toList)
  | p :: ps => String.mk (replaceLoop p ps repl.toList s.toList.length s.toList)

/-- Template selection in `draft_reply` (graph.py lines 135-138): first
template whose `issue_type` matches, else the hard-coded default. -/
def getTemplate (replies : List ReplyTemplate) (issue_type : String) : String :=
  match replies.find? (fun r => r.issue_type == issue_type) with
  | some r => r.template
  | none => "Hi {{customer_name}}, we are reviewing order {{order_id}}."

/-- The value substituted for the customer-name placeholder,
`order.get("customer_name", "Customer")` (graph.py line 140): the error dict
and the absent dict both lack the key, so they fall to the default. -/
def replCustomerName (fetched : Option FetchResult) : String :=
  match fetched with
  | some (FetchResult.found o) => o.customer_name
  | _ => "Customer"

/-- The value substituted for the order-id placeholder,
`order.get("order_id", state.get("order_id") or "")` (graph.py line 141). -/
def replOrderId (fetched : Option FetchResult) (order_id : Option String) : String :=
  match fetched with
  | some (FetchResult.found o) => o.order_id
  | _ => order_id.getD ""

/-- Node 4, `draft_reply` (graph.py lines 121-146), restricted to its
`(reply, recommendation)` output.  `fetched` is the parsed content of the
latest ToolMessage (absent when the fetch stage was skipped). -/
def draft_reply (replies : List ReplyTemplate) (issue_type : String)
    (fetched : Option FetchResult) (order_id : Option String) : String × String :=
  let template := getTemplate replies issue_type
  let reply := pyReplace (pyReplace template "{{customer_name}}" (replCustomerName fetched))
    "{{order_id}}" (replOrderId fetched order_id)
  (reply, getRecommendation issue_type)

/-- The conditional edge `route_after_classify` (graph.py lines 150-154):
returns the name of the next node. -/
def route_after_classify (order_id : Option String) : String :=
  if truthy order_id then "fetch_order" else "draft_reply"

/-- The nodes of the graph assembled by `build_graph` (graph.py lines 158-172),
with `stop` standing for the END sentinel. -/
inductive Node where
  | ingest
  | classify
  | fetch
  | draft
  | stop
deriving DecidableEq

/-- The edge relation of `build_graph`: the fixed edges plus the one
conditional edge out of `classify_issue`, decided by the truthiness of the
state's order id. -/
def nextNode (hasOrderId : Bool) : Node → Option Node
  | Node.ingest => some Node.classify
  | Node.classify => if hasOrderId then some Node.fetch else some Node.draft
  | Node.fetch => some Node.draft
  | Node.draft => some Node.stop
  | Node.stop => none

/-- Fueled walk along `nextNode`, collecting the visited nodes. -/
def walk : Nat → Bool → Node → List Node
  | 0, _, _ => []
  | fuel + 1, h, node =>
    node ::
      (match nextNode h node with
       | some nxt => walk fuel h nxt
       | none => [])

/-- The node sequence of one graph invocation, from the entry point; fuel 5
covers the longest path (ingest, classify, fetch, draft, END). -/
def trace (hasOrderId : Bool) : List Node :=
  walk 5 hasOrderId Node.ingest

/-- The entry point `run_triage` (graph.py lines 179-207): build the initial
state (a truthy caller id only), run the graph, and assemble the result dict.
The `order`/`error` fields replay lines 190-207: the parsed tool output is the
order unless it is the error dict, in which case its message lands in
`error`. -/
def run_triage (orders : List Order) (issues : List IssueRule)
    (replies : List ReplyTemplate) (ticket_text : String)
    (order_id : Option String) : Result :=
  let supplied := if truthy order_id then order_id else none
  let oid := ingest ticket_text supplied
  let classified := classify_issue issues ticket_text
  let fetched : Option FetchResult :=
    if route_after_classify oid == "fetch_order" then
      match oid with
      | some i => some (fetch_order_tool orders i)
      | none => none
    else none
  let drafted := draft_reply replies classified.1 fetched oid
  { order_id := oid
    issue_type := some classified.1
    evidence := some classified.2
    recommendation := some drafted.2
    order :=
      match fetched with
      | some (FetchResult.found o) => some o
      | _ => none
    reply_text := drafted.1
    error :=
      match fetched with
      | some (FetchResult.notFound e) => some e
      | _ => none }

/-- The process-wide stores (module globals ORDERS, ISSUES, REPLIES). -/
structure Stores where
  orders : List Order
  issues : List IssueRule
  replies : List ReplyTemplate
deriving DecidableEq

/-- One invocation viewed as a transformer of the process-wide stores:
`graph.py` never writes to ORDERS/ISSUES/REPLIES, so the store component
comes back unchanged. -/
def runTriageProc (s : Stores) (ticket_text : String) (order_id : Option String) :
    Result × Stores :=
  (run_triage s.orders s.issues s.replies ticket_text order_id, s)

/-- Two successive invocations with identical inputs, the second starting from
whatever store state the first left behind. -/
def runTwice (s : Stores) (ticket_text : String) (order_id : Option String) :
    Result × Result :=
  let first := runTriageProc s ticket_text order_id
  let second := runTriageProc first.2 ticket_text order_id
  (first.1, second.1)

/-- A sample stored order used to instantiate hypotheses on concrete inputs. -/
def demoOrder : Order :=
  { order_id := "ORD1001", customer_name := "Jane Doe", status := "delivered",
    items := [{ name := "Mug", quantity := 2 }] }

/-- A regex attempt anchored at a position never yields the empty string. -/
theorem matchOrdAt_ne_empty {l : List Char} {s : String} (h : matchOrdAt l = some s) :
    s ≠ "" := by
  unfold matchOrdAt at h
  split at h
  · split at h
    · cases h
      intro hc
      rw [String.ext_iff] at hc
      simp at hc
    · cases h
  · cases h

/-- An anchored regex attempt succeeds on any position presenting `ORD` (up to
case) followed by four digits, returning the uppercased seven characters. -/
theorem matchOrdAt_pattern (c0 c1 c2 d0 d1 d2 d3 : Char) (rest : List Char)
    (h0 : c0.toUpper = 'O') (h1 : c1.toUpper = 'R') (h2 : c2.toUpper = 'D')
    (g0 : d0.isDigit = true) (g1 : d1.isDigit = true) (g2 : d2.isDigit = true)
    (g3 : d3.isDigit = true) :
    matchOrdAt (c0 :: c1 :: c2 :: d0 :: d1 :: d2 :: d3 :: rest)
      = some (String.mk ([c0, c1, c2, d0, d1, d2, d3].map Char.toUpper)) := by
  simp [matchOrdAt, h0, h1, h2, g0, g1, g2, g3]

/-- The scan returns the match at position `i` when every earlier position
fails: `re.search` finds the leftmost occurrence. -/
theorem findOrd_first {s : String} :
    ∀ (i : Nat) (l : List Char), matchOrdAt (l.drop i) = some s →
      (∀ j, j < i → matchOrdAt (l.drop j) = none) → findOrd l = some s := by
  intro i
  induction i with
  | zero =>
    intro l h _
    match l with
    | [] => simp [matchOrdAt] at h
    | c :: rest =>
      rw [List.drop_zero] at h
      simp [findOrd, h]
  | succ i ih =>
    intro l h hj
    match l with
    | [] => rw [List.drop_nil] at h; simp [matchOrdAt] at h
    | c :: rest =>
      have h0 : matchOrdAt (c :: rest) = none := by simpa using hj 0 (Nat.succ_pos i)
      rw [List.drop_succ_cons] at h
      simp only [findOrd, h0]
      exact ih rest h (fun j hlt => by
        simpa [List.drop_succ_cons] using hj (j + 1) (Nat.succ_lt_succ hlt))

/-- The scan fails when every position fails (positions past the end fail
trivially, hence the bound). -/
theorem findOrd_none :
    ∀ (l : List Char), (∀ j, j < l.length → matchOrdAt (l.drop j) = none) →
      findOrd l = none := by
  intro l
  induction l with
  | nil => intro _; rfl
  | cons c rest ih =>
    intro h
    have h0 : matchOrdAt (c :: rest) = none := by simpa using h 0 (Nat.succ_pos _)
    simp only [findOrd, h0]
    exact ih (fun j hlt => by
      simpa [List.drop_succ_cons] using h (j + 1) (Nat.succ_lt_succ hlt))

/-- A successful scan never yields the empty string. -/
theorem findOrd_ne_empty : ∀ {l : List Char} {s : String}, findOrd l = some s → s ≠ "" := by
  intro l
  induction l with
  | nil => intro s h; simp [findOrd] at h
  | cons c rest ih =>
    intro s h
    simp only [findOrd] at h
    cases hm : matchOrdAt (c :: rest) with
    | some u =>
      rw [hm] at h
      injection h with h'
      subst h'
      exact matchOrdAt_ne_empty hm
    | none =>
      rw [hm] at h
      exact ih h

/-- `containsSub` decides exactly the substring (infix) relation, so the
embedded test agrees with Python's `in`. -/
theorem containsSub_iff (needle : List Char) :
    ∀ (hay : List Char), containsSub needle hay = true ↔ needle <:+: hay := by
  intro hay
  induction hay with
  | nil =>
    simp [containsSub, List.isPrefixOf_iff_prefix, List.prefix_nil, List.infix_nil]
  | cons c rest ih =>
    simp [containsSub, List.isPrefixOf_iff_prefix, ih, List.infix_cons_iff]

/-- First-match-wins for the classifier: with no earlier rule matching, the
rule `r` determines both outputs. -/
theorem classify_issue_first (pre post : List IssueRule) (r : IssueRule) (t : String)
    (hmatch : r.keyword.toList <:+: t.toList.map Char.toLower)
    (hpre : ∀ q ∈ pre, ¬ (q.keyword.toList <:+: t.toList.map Char.toLower)) :
    classify_issue (pre ++ r :: post) t =
      (r.issue_type, "Matched keyword '" ++ r.keyword ++ "' in ticket text") := by
  have hfind : (pre ++ r :: post).find?
      (fun q => containsSub q.keyword.data (List.map Char.toLower t.data)) = some r := by
    rw [List.find?_append]
    have hpre' : pre.find?
        (fun q => containsSub q.keyword.data (List.map Char.toLower t.data)) = none :=
      List.find?_eq_none.mpr (fun x hx => by
        simp only [containsSub_iff]
        exact hpre x hx)
    rw [hpre', Option.none_or]
    exact List.find?_cons_of_pos _ ((containsSub_iff _ _).mpr hmatch)
  simp [classify_issue, hfind]

/-- The classifier's fall-through case: no keyword occurs in the text. -/
theorem classify_issue_nomatch (issues : List IssueRule) (t : String)
    (h : ∀ q ∈ issues, ¬ (q.keyword.toList <:+: t.toList.map Char.toLower)) :
    classify_issue issues t = ("unknown", "No matching keywords found in ticket text") := by
  have hfind : issues.find?
      (fun q => containsSub q.keyword.data (List.map Char.toLower t.data)) = none :=
    List.find?_eq_none.mpr (fun x hx => by
      simp only [containsSub_iff]
      exact h x hx)
  simp [classify_issue, hfind]

/-- The order id landing in the state after ingest is never the empty string:
a truthy caller id is non-empty, and extracted ids come from `findOrd`. -/
theorem ingest_ne_empty {t : String} {a : Option String} {s : String}
    (h : ingest t (if truthy a then a else none) = some s) : s ≠ "" := by
  by_cases ha : truthy a = true
  · rw [if_pos ha] at h
    unfold ingest at h
    rw [if_pos ha] at h
    cases a with
    | none => simp [truthy] at ha
    | some x =>
      injection h with h'
      subst h'
      simpa [truthy] using ha
  · rw [if_neg ha] at h
    unfold ingest at h
    simp only [truthy, Bool.false_eq_true, if_false] at h
    cases hf : findOrd t.toList with
    | some u =>
      rw [hf] at h
      injection h with h'
      subst h'
      exact findOrd_ne_empty hf
    | none => rw [hf] at h; cases h

/-- When the state carries an order id `s`, the whole invocation is determined:
the branch routes through the fetch stage with argument exactly `s`, and the
result's fields are assembled from the tool's verdict on `s`. -/
theorem run_triage_fetched (orders : List Order) (issues : List IssueRule)
    (replies : List ReplyTemplate) (t : String) (a : Option String) (s : String)
    (h : (run_triage orders issues replies t a).order_id = some s) :
    run_triage orders issues replies t a =
      { order_id := some s
        issue_type := some (classify_issue issues t).1
        evidence := some (classify_issue issues t).2
        recommendation := some (draft_reply replies (classify_issue issues t).1
          (some (fetch_order_tool orders s)) (some s)).2
        order :=
          match fetch_order_tool orders s with
          | FetchResult.found o => some o
          | FetchResult.notFound _ => none
        reply_text := (draft_reply replies (classify_issue issues t).1
          (some (fetch_order_tool orders s)) (some s)).1
        error :=
          match fetch_order_tool orders s with
          | FetchResult.found _ => none
          | FetchResult.notFound e => some e } := by
  have h' : ingest t (if truthy a then a else none) = some s := h
  have hne : s ≠ "" := ingest_ne_empty h'
  have hroute : (route_after_classify (some s) == "fetch_order") = true := by
    simp [route_after_classify, truthy, hne]
  simp only [run_triage, h', hroute, if_true]
  cases hf : fetch_order_tool orders s <;> simp

/-- When the state carries no order id, the branch skips the fetch stage and
the result's order and error stay empty. -/
theorem run_triage_unfetched (orders : List Order) (issues : List IssueRule)
    (replies : List ReplyTemplate) (t : String) (a : Option String)
    (h : (run_triage orders issues replies t a).order_id = none) :
    run_triage orders issues replies t a =
      { order_id := none
        issue_type := some (classify_issue issues t).1
        evidence := some (classify_issue issues t).2
        recommendation := some (draft_reply replies (classify_issue issues t).1 none none).2
        order := none
        reply_text := (draft_reply replies (classify_issue issues t).1 none none).1
        error := none } := by
  have h' : ingest t (if truthy a then a else none) = none := h
  have hroute : (route_after_classify none == "fetch_order") = false := by
    simp [route_after_classify, truthy]
  simp only [run_triage, h', hroute, Bool.false_eq_true, if_false]

/-- A replace pass with a pattern that does not occur leaves the text
unchanged, for any fuel. -/
theorem replaceLoop_not_contained (p : Char) (ps repl : List Char) :
    ∀ (fuel : Nat) (l : List Char), ¬ ((p :: ps) <:+: l) →
      replaceLoop p ps repl fuel l = l := by
  intro fuel
  induction fuel with
  | zero => intro l _; cases l <;> rfl
  | succ fuel ih =>
    intro l h
    cases l with
    | nil => rfl
    | cons c rest =>
      have hpre : (p :: ps).isPrefixOf (c :: rest) = false := by
        cases hp : (p :: ps).isPrefixOf (c :: rest)
        · rfl
        · exact absurd (List.IsPrefix.isInfix (List.isPrefixOf_iff_prefix.mp hp)) h
      simp only [replaceLoop, hpre, Bool.false_eq_true, if_false]
      exact congrArg (c :: ·) (ih rest (fun hi => h (List.infix_cons hi)))

/-- `pyReplace` with a non-empty, non-occurring pattern is the identity. -/
theorem pyReplace_not_contained {s pat repl : String} {p : Char} {ps : List Char}
    (hp : pat.toList = p :: ps) (h : ¬ (pat.toList <:+: s.toList)) :
    pyReplace s pat repl = s := by
  unfold pyReplace
  rw [hp]
  show String.mk (replaceLoop p ps repl.toList s.toList.length s.toList) = s
  rw [replaceLoop_not_contained p ps repl.toList s.toList.length s.toList (hp ▸ h)]
  rfl

/-- Convenience form of `pyReplace_not_contained` with a non-emptiness
hypothesis instead of an explicit head/tail split. -/
theorem pyReplace_not_contained_of_ne {s pat repl : String}
    (hp : pat.toList ≠ []) (h : ¬ (pat.toList <:+: s.toList)) :
    pyReplace s pat repl = s := by
  match hl : pat.toList with
  | [] => exact absurd hl hp
  | p :: ps => exact pyReplace_not_contained hl h

/-- C1: for every ticket text containing, case-insensitively, a substring of
the pattern ORD followed by exactly four digits, and no caller-supplied
order_id, the order_id in run_triage's result equals the first such occurrence
in the text, uppercased. -/
theorem claim_C1 (orders : List Order) (issues : List IssueRule)
    (replies : List ReplyTemplate) (t : String) (pre rest : List Char)
    (c0 c1 c2 d0 d1 d2 d3 : Char)
    (hsplit : t.toList = pre ++ c0 :: c1 :: c2 :: d0 :: d1 :: d2 :: d3 :: rest)
    (h0 : c0.toUpper = 'O') (h1 : c1.toUpper = 'R') (h2 : c2.toUpper = 'D')
    (g0 : d0.isDigit = true) (g1 : d1.isDigit = true) (g2 : d2.isDigit = true)
    (g3 : d3.isDigit = true)
    (hfirst : ∀ j, j < pre.length → matchOrdAt (t.toList.drop j) = none) :
    (run_triage orders issues replies t none).order_id =
      some (String.mk ([c0, c1, c2, d0, d1, d2, d3].map Char.toUpper)) := by
  have hdrop : t.toList.drop pre.length = c0 :: c1 :: c2 :: d0 :: d1 :: d2 :: d3 :: rest := by
    rw [hsplit]
    exact List.drop_left pre _
  have hm : matchOrdAt (t.toList.drop pre.length)
      = some (String.mk ([c0, c1, c2, d0, d1, d2, d3].map Char.toUpper)) := by
    rw [hdrop]
    exact matchOrdAt_pattern c0 c1 c2 d0 d1 d2 d3 rest h0 h1 h2 g0 g1 g2 g3
  have hfo : findOrd t.toList
      = some (String.mk ([c0, c1, c2, d0, d1, d2, d3].map Char.toUpper)) :=
    findOrd_first pre.length t.toList hm hfirst
  have hfo' : findOrd t.data
      = some (String.mk ([c0, c1, c2, d0, d1, d2, d3].map Char.toUpper)) := hfo
  show ingest t (if truthy none then none else none)
      = some (String.mk ([c0, c1, c2, d0, d1, d2, d3].map Char.toUpper))
  simp [ingest, truthy, hfo']

/-- Witness for C1 on a concrete ticket: the first lowercase occurrence wins
and is uppercased. -/
theorem claim_C1_witness :
    (run_triage [] [] [] "see ord1234 now" none).order_id = some "ORD1234" := by
  have h := claim_C1 [] [] [] "see ord1234 now" "see ".toList " now".toList
    'o' 'r' 'd' '1' '2' '3' '4' (by decide) (by decide) (by decide) (by decide)
    (by decide) (by decide) (by decide) (by decide) (by decide)
  exact h.trans (by decide)

/-- C2: for every order_id present in the result state, a store hit returns
the stored record with no error, and a store miss returns no order plus a
non-empty error mentioning the id. -/
theorem claim_C2 (orders : List Order) (issues : List IssueRule)
    (replies : List ReplyTemplate) (t : String) (a : Option String) (i : String)
    (hid : (run_triage orders issues replies t a).order_id = some i) :
    (∀ o, orders.find? (fun q => q.order_id == i) = some o →
      (run_triage orders issues replies t a).order = some o ∧
      (run_triage orders issues replies t a).error = none) ∧
    ((∀ o ∈ orders, o.order_id ≠ i) →
      (run_triage orders issues replies t a).order = none ∧
      ∃ e, (run_triage orders issues replies t a).error = some e ∧ e ≠ "" ∧
        i.toList <:+: e.toList) := by
  have hr := run_triage_fetched orders issues replies t a i hid
  constructor
  · intro o hfo
    have hfetch : fetch_order_tool orders i = FetchResult.found o := by
      simp [fetch_order_tool, hfo]
    rw [hr]
    simp [hfetch]
  · intro hnone
    have hfind : orders.find? (fun q => q.order_id == i) = none :=
      List.find?_eq_none.mpr (fun x hx => by simpa using hnone x hx)
    have hfetch : fetch_order_tool orders i
        = FetchResult.notFound ("Order " ++ i ++ " not found") := by
      simp [fetch_order_tool, hfind]
    rw [hr]
    refine ⟨by simp [hfetch], "Order " ++ i ++ " not found", by simp [hfetch], ?_, ?_⟩
    · intro hc
      have hlen := congrArg String.length hc
      rw [String.length_append, String.length_append] at hlen
      have h6 : ("Order " : String).length = 6 := rfl
      have h10 : (" not found" : String).length = 10 := rfl
      have hz : ("" : String).length = 0 := rfl
      omega
    · refine ⟨"Order ".toList, " not found".toList, ?_⟩
      show "Order ".data ++ i.data ++ " not found".data = ("Order " ++ i ++ " not found").data
      rw [String.data_append, String.data_append]

/-- Witness for C2: both the hit and the miss branch on a one-order store. -/
theorem claim_C2_witness :
    ((run_triage [demoOrder] [] [] "ORD1001 broke" none).order = some demoOrder ∧
      (run_triage [demoOrder] [] [] "ORD1001 broke" none).error = none) ∧
    ((run_triage [demoOrder] [] [] "ORD9999 broke" none).order = none ∧
      ∃ e, (run_triage [demoOrder] [] [] "ORD9999 broke" none).error = some e ∧ e ≠ "" ∧
        ("ORD9999" : String).toList <:+: e.toList) := by
  constructor
  · exact (claim_C2 [demoOrder] [] [] "ORD1001 broke" none "ORD1001"
      (by decide)).1 demoOrder (by decide)
  · exact (claim_C2 [demoOrder] [] [] "ORD9999 broke" none "ORD9999"
      (by decide)).2 (by decide)

/-- C3: with no ORD-plus-four-digits occurrence and no caller-supplied id,
the result has order_id, order and error all null, the conditional edge picks
the reply node, and the fetch node is not on the executed path. -/
theorem claim_C3 (orders : List Order) (issues : List IssueRule)
    (replies : List ReplyTemplate) (t : String)
    (hno : ∀ j, j < t.toList.length → matchOrdAt (t.toList.drop j) = none) :
    (run_triage orders issues replies t none).order_id = none ∧
    (run_triage orders issues replies t none).order = none ∧
    (run_triage orders issues replies t none).error = none ∧
    route_after_classify (run_triage orders issues replies t none).order_id = "draft_reply" ∧
    Node.fetch ∉ trace (truthy (run_triage orders issues replies t none).order_id) := by
  have hf : findOrd t.toList = none := findOrd_none t.toList hno
  have hf' : findOrd t.data = none := hf
  have hid : (run_triage orders issues replies t none).order_id = none := by
    show ingest t (if truthy none then none else none) = none
    simp [ingest, truthy, hf']
  have hr := run_triage_unfetched orders issues replies t none hid
  refine ⟨hid, by rw [hr], by rw [hr], by rw [hid]; rfl, by rw [hid]; decide⟩

/-- Witness for C3 on a concrete pattern-free ticket. -/
theorem claim_C3_witness :
    (run_triage [demoOrder] [] [] "my package is late" none).order_id = none ∧
    (run_triage [demoOrder] [] [] "my package is late" none).order = none ∧
    (run_triage [demoOrder] [] [] "my package is late" none).error = none ∧
    route_after_classify (run_triage [demoOrder] [] [] "my package is late" none).order_id
      = "draft_reply" ∧
    Node.fetch ∉
      trace (truthy (run_triage [demoOrder] [] [] "my package is late" none).order_id) :=
  claim_C3 [demoOrder] [] [] "my package is late" (by decide)

/-- C4: classification is first-match-wins over the ordered rule sequence:
the earliest rule whose keyword is a substring of the lowercased text
determines the issue_type. -/
theorem claim_C4 (issues pre post : List IssueRule) (r : IssueRule) (t : String)
    (heq : issues = pre ++ r :: post)
    (hmatch : r.keyword.toList <:+: t.toList.map Char.toLower)
    (hpre : ∀ q ∈ pre, ¬ (q.keyword.toList <:+: t.toList.map Char.toLower)) :
    (classify_issue issues t).1 = r.issue_type := by
  subst heq
  rw [classify_issue_first pre post r t hmatch hpre]

/-- Witness for C4: rule R1 (keyword broken) listed before R2 (keyword broke),
on a text containing both substrings, yields R1's issue_type. -/
theorem claim_C4_witness :
    (classify_issue [{ keyword := "broken", issue_type := "damaged_item" },
      { keyword := "broke", issue_type := "refund_request" }] "It broke and is broken").1
      = "damaged_item" :=
  claim_C4 [{ keyword := "broken", issue_type := "damaged_item" },
      { keyword := "broke", issue_type := "refund_request" }]
    [] [{ keyword := "broke", issue_type := "refund_request" }]
    { keyword := "broken", issue_type := "damaged_item" } "It broke and is broken"
    rfl (by decide) (by decide)

/-- C5: a non-empty caller-supplied order_id is used unchanged in the result
and as the lookup argument, for every ticket text (so no extraction from the
text occurs, whatever ORD patterns it contains). -/
theorem claim_C5 (orders : List Order) (issues : List IssueRule)
    (replies : List ReplyTemplate) (t s : String) (hs : s ≠ "") :
    (run_triage orders issues replies t (some s)).order_id = some s ∧
    (run_triage orders issues replies t (some s)).order =
      (match fetch_order_tool orders s with
       | FetchResult.found o => some o
       | FetchResult.notFound _ => none) ∧
    (run_triage orders issues replies t (some s)).error =
      (match fetch_order_tool orders s with
       | FetchResult.found _ => none
       | FetchResult.notFound e => some e) := by
  have htr : truthy (some s) = true := by simp [truthy, hs]
  have hid : (run_triage orders issues replies t (some s)).order_id = some s := by
    show ingest t (if truthy (some s) then some s else none) = some s
    simp [ingest, htr]
  have hr := run_triage_fetched orders issues replies t (some s) s hid
  exact ⟨hid, by rw [hr], by rw [hr]⟩

/-- Witness for C5: the supplied id wins although the text mentions a
different ORD pattern. -/
theorem claim_C5_witness :
    (run_triage [demoOrder] [] [] "text ord9999" (some "ORD1001")).order_id = some "ORD1001" ∧
    (run_triage [demoOrder] [] [] "text ord9999" (some "ORD1001")).order = some demoOrder ∧
    (run_triage [demoOrder] [] [] "text ord9999" (some "ORD1001")).error = none := by
  have h := claim_C5 [demoOrder] [] [] "text ord9999" "ORD1001" (by decide)
  exact ⟨h.1, h.2.1.trans (by decide), h.2.2.trans (by decide)⟩

/-- C6: reply composition is literal text replacement on the selected
template, substituting customer name (default Customer) and order id
(resolved id, else supplied/derived id, else empty), and a template containing
neither placeholder, whatever other doubly-braced tokens it holds, is left
verbatim. -/
theorem claim_C6 (replies : List ReplyTemplate) (issue_type : String)
    (fetched : Option FetchResult) (oid : Option String) :
    (draft_reply replies issue_type fetched oid).1 =
      pyReplace
        (pyReplace (getTemplate replies issue_type) "{{customer_name}}"
          (replCustomerName fetched))
        "{{order_id}}" (replOrderId fetched oid) ∧
    (¬ (("{{customer_name}}" : String).toList <:+: (getTemplate replies issue_type).toList) →
      ¬ (("{{order_id}}" : String).toList <:+: (getTemplate replies issue_type).toList) →
      (draft_reply replies issue_type fetched oid).1 = getTemplate replies issue_type) := by
  constructor
  · rfl
  · intro hcn hoid
    have e1 : pyReplace (getTemplate replies issue_type) "{{customer_name}}"
        (replCustomerName fetched) = getTemplate replies issue_type :=
      pyReplace_not_contained_of_ne (by decide) hcn
    have e2 : pyReplace (getTemplate replies issue_type) "{{order_id}}"
        (replOrderId fetched oid) = getTemplate replies issue_type :=
      pyReplace_not_contained_of_ne (by decide) hoid
    show pyReplace
        (pyReplace (getTemplate replies issue_type) "{{customer_name}}"
          (replCustomerName fetched))
        "{{order_id}}" (replOrderId fetched oid) = getTemplate replies issue_type
    rw [e1, e2]

/-- Witness for C6: a template holding only a foreign token comes through
verbatim. -/
theorem claim_C6_witness :
    (draft_reply [{ issue_type := "x", template := "Hello {{foo}} world" }] "x"
      (some (FetchResult.found demoOrder)) (some "ORD1001")).1 = "Hello {{foo}} world" :=
  (claim_C6 [{ issue_type := "x", template := "Hello {{foo}} world" }] "x"
    (some (FetchResult.found demoOrder)) (some "ORD1001")).2 (by decide) (by decide)

/-- C7: the graph built by build_graph has no cycles: for either branch
outcome the walk from the entry point terminates at END, visits each node at
most once, and is unchanged by extra fuel; and every invocation of run_triage
returns a fully populated Result (issue_type, evidence and recommendation are
always set), the three edge conditions being plain values rather than
exceptions. -/
theorem claim_C7 :
    (∀ b : Bool, (trace b).Nodup ∧ (trace b).getLast? = some Node.stop ∧
      walk 6 b Node.ingest = trace b) ∧
    (∀ (orders : List Order) (issues : List IssueRule) (replies : List ReplyTemplate)
      (t : String) (a : Option String),
      (run_triage orders issues replies t a).issue_type.isSome = true ∧
      (run_triage orders issues replies t a).evidence.isSome = true ∧
      (run_triage orders issues replies t a).recommendation.isSome = true) := by
  constructor
  · intro b
    cases b <;> exact ⟨by decide, by decide, by decide⟩
  · intro orders issues replies t a
    exact ⟨rfl, rfl, rfl⟩

/-- C8: run_triage is deterministic and stateless across invocations: two
successive calls with identical inputs give identical Results, and an
invocation leaves the process-wide stores untouched. -/
theorem claim_C8 (s : Stores) (t : String) (a : Option String) :
    (runTwice s t a).1 = (runTwice s t a).2 ∧ (runTriageProc s t a).2 = s :=
  ⟨rfl, rfl⟩

/-- C9 as stated is false: the code's evidence strings are capitalized and
carry the suffix in ticket text, unlike the claimed exact strings. -/
theorem claim_C9_counterexample :
    (classify_issue [{ keyword := "broken", issue_type := "damaged_item" }]
      "it is broken").2 ≠ "matched keyword 'broken'" ∧
    (classify_issue [] "hello").2 ≠ "no matching keywords found." := by
  constructor
  · decide
  · decide

/-- C9 amended: on a keyword match the evidence is exactly the string
Matched keyword '<keyword>' in ticket text, and when no rule matches the
issue_type is unknown with evidence exactly No matching keywords found in
ticket text. -/
theorem claim_C9_amended (issues : List IssueRule) (t : String) :
    (∀ pre r post, issues = pre ++ r :: post →
      r.keyword.toList <:+: t.toList.map Char.toLower →
      (∀ q ∈ pre, ¬ (q.keyword.toList <:+: t.toList.map Char.toLower)) →
      classify_issue issues t =
        (r.issue_type, "Matched keyword '" ++ r.keyword ++ "' in ticket text")) ∧
    ((∀ q ∈ issues, ¬ (q.keyword.toList <:+: t.toList.map Char.toLower)) →
      classify_issue issues t = ("unknown", "No matching keywords found in ticket text")) := by
  constructor
  · intro pre r post heq hmatch hpre
    subst heq
    exact classify_issue_first pre post r t hmatch hpre
  · intro h
    exact classify_issue_nomatch issues t h

/-- Witness for the amended C9: both evidence strings at concrete inputs. -/
theorem claim_C9_amended_witness :
    classify_issue [{ keyword := "broken", issue_type := "damaged_item" }] "it is broken"
      = ("damaged_item", "Matched keyword 'broken' in ticket text") ∧
    classify_issue [{ keyword := "refund", issue_type := "refund_request" }] "hello there"
      = ("unknown", "No matching keywords found in ticket text") := by
  constructor
  · exact (claim_C9_amended [{ keyword := "broken", issue_type := "damaged_item" }]
      "it is broken").1 [] { keyword := "broken", issue_type := "damaged_item" } []
      rfl (by decide) (by decide)
  · exact (claim_C9_amended [{ keyword := "refund", issue_type := "refund_request" }]
      "hello there").2 (by decide)

/-- C10: a caller-supplied order_id reaches the lookup exactly as given, with
no normalization or validation (a lowercase id misses an uppercase stored id
and surfaces the not-found error naming the id verbatim), and a supplied
empty-string order_id behaves exactly as no supplied id at all. -/
theorem claim_C10 (orders : List Order) (issues : List IssueRule)
    (replies : List ReplyTemplate) :
    (∀ t, run_triage orders issues replies t (some "") =
      run_triage orders issues replies t none) ∧
    (∀ s t, s ≠ "" → (∀ o ∈ orders, o.order_id ≠ s) →
      (run_triage orders issues replies t (some s)).order_id = some s ∧
      (run_triage orders issues replies t (some s)).order = none ∧
      (run_triage orders issues replies t (some s)).error =
        some ("Order " ++ s ++ " not found")) := by
  constructor
  · intro t
    rfl
  · intro s t hs hno
    have hfind : orders.find? (fun q => q.order_id == s) = none :=
      List.find?_eq_none.mpr (fun x hx => by simpa using hno x hx)
    have hfetch : fetch_order_tool orders s
        = FetchResult.notFound ("Order " ++ s ++ " not found") := by
      simp [fetch_order_tool, hfind]
    have htr : truthy (some s) = true := by simp [truthy, hs]
    have hid : (run_triage orders issues replies t (some s)).order_id = some s := by
      show ingest t (if truthy (some s) then some s else none) = some s
      simp [ingest, htr]
    have hr := run_triage_fetched orders issues replies t (some s) s hid
    exact ⟨hid, by rw [hr]; simp [hfetch], by rw [hr]; simp [hfetch]⟩

/-- Witness for C10: supplying ord1001 while ORD1001 is stored misses the
store, and an empty supplied id equals no id. -/
theorem claim_C10_witness :
    run_triage [demoOrder] [] [] "hello" (some "") =
      run_triage [demoOrder] [] [] "hello" none ∧
    (run_triage [demoOrder] [] [] "hello" (some "ord1001")).order_id = some "ord1001" ∧
    (run_triage [demoOrder] [] [] "hello" (some "ord1001")).order = none ∧
    (run_triage [demoOrder] [] [] "hello" (some "ord1001")).error =
      some "Order ord1001 not found" := by
  refine ⟨(claim_C10 [demoOrder] [] []).1 "hello", ?_⟩
  have h := (claim_C10 [demoOrder] [] []).2 "ord1001" "hello" (by decide) (by decide)
  exact ⟨h.1, h.2.1, h.2.2.trans (by decide)⟩

end Triage
